import Mathlib

/-!
Verification of the geographic-enrichment core of the hdb-resale-intel
repository.  The Python sources are shallowly embedded as Lean functions:

* `Features` — `src/transform/features.py`: the haversine distance helper,
  the batched nearest-distance engine, and the coordinate-resolution steps
  of `main` (precise block+street geocode merge, town-centroid fallback).
* `MrtReal` — `src/ingest_real/mrt_real.py`: the tiered MRT reference-point
  resolver `fetch_mrt_exits_real`.
* `Geo` — `src/utils/geo.py`: the cached geocoder `cached_geocode_many`.
* `HdbReal` — `src/ingest_real/hdb_real.py`: the CKAN pager `_ckan_fetch_all`.

Numeric coordinates are modelled as real numbers (for the trigonometric
distance computation) or as rationals (where only equality and presence
matter).  Fallible Python code is modelled with `Except String`, where
`.error` denotes an uncaught Python exception propagating to the caller.
-/

namespace Features

/-- `np.radians`: degrees to radians. -/
noncomputable def radians (x : ℝ) : ℝ := x * Real.pi / 180

/-- `_haversine_m` (features.py lines 125-134): haversine distance in meters
on a sphere of radius 6,371,000 m, degrees converted to radians, central
angle via the half-angle form `2 * arcsin (sqrt a)`. -/
noncomputable def haversine_m (lat1 lon1 lat2 lon2 : ℝ) : ℝ :=
  6371000 * (2 * Real.arcsin (Real.sqrt (
    Real.sin ((radians lat2 - radians lat1) / 2) ^ 2 +
    Real.cos (radians lat1) * Real.cos (radians lat2) *
      Real.sin ((radians lon2 - radians lon1) / 2) ^ 2)))

/-- One row of the pairwise distance matrix reduced by `np.nanmin` (with real
inputs no NaN can arise, so this is the plain minimum); `none` corresponds to
an empty reference table (never reached inside the batch loop). -/
noncomputable def row_min (refs : List (ℝ × ℝ)) (p : ℝ × ℝ) : Option ℝ :=
  match refs with
  | [] => none
  | q :: qs =>
    some (qs.foldl (fun m r => min m (haversine_m p.1 p.2 r.1 r.2))
      (haversine_m p.1 p.2 q.1 q.2))

/-- The batch loop of `_nearest_distance_m`: `for start in range(0, n, batch)`
processing `batch` records at a time, concatenating results in input order.
Assumes `batch ≠ 0` (guarded at the call site, where `batch = 0` models the
`range` step-zero `ValueError`). -/
noncomputable def batch_loop (refs : List (ℝ × ℝ)) (pts : List (ℝ × ℝ))
    (batch : ℕ) : List (Option ℝ) :=
  if h : pts = [] ∨ batch = 0 then []
  else
    (pts.take batch).map (row_min refs) ++ batch_loop refs (pts.drop batch) batch
termination_by pts.length
decreasing_by
  simp only [not_or] at h
  have h1 : pts ≠ [] := h.1
  have h2 : batch ≠ 0 := h.2
  have : 0 < pts.length := List.length_pos.mpr h1
  simp only [List.length_drop]
  omega

/-- `_nearest_distance_m` (features.py lines 136-154).  `refs = none` models
an absent reference table (`ref_df is None`); `some []` an empty one.  With a
non-empty reference table and `batch = 0`, Python's `range(0, n, 0)` raises
`ValueError`, modelled as `.error`. -/
noncomputable def nearest_distance_m (pts : List (ℝ × ℝ))
    (refs : Option (List (ℝ × ℝ))) (batch : ℕ) :
    Except String (List (Option ℝ)) :=
  match refs with
  | none => .ok (List.replicate pts.length none)
  | some rs =>
    if rs.isEmpty then .ok (List.replicate pts.length none)
    else if batch = 0 then .error "range arg 3 must not be zero"
    else .ok (batch_loop rs pts batch)

theorem batch_loop_nil (refs : List (ℝ × ℝ)) (batch : ℕ) :
    batch_loop refs [] batch = [] := by
  rw [batch_loop]
  simp

theorem batch_loop_eq_map (refs : List (ℝ × ℝ)) (batch : ℕ)
    (hb : batch ≠ 0) (pts : List (ℝ × ℝ)) :
    batch_loop refs pts batch = pts.map (row_min refs) := by
  have key : ∀ n (l : List (ℝ × ℝ)), l.length ≤ n →
      batch_loop refs l batch = l.map (row_min refs) := by
    intro n
    induction n with
    | zero =>
      intro l hl
      have : l = [] := List.eq_nil_of_length_eq_zero (Nat.le_zero.mp hl)
      subst this
      simp [batch_loop_nil]
    | succ n ih =>
      intro l hl
      rw [batch_loop]
      by_cases hp : l = []
      · subst hp; simp
      · have hlen : 0 < l.length := List.length_pos.mpr hp
        rw [dif_neg (by simp [hp, hb])]
        have hdrop : (l.drop batch).length ≤ n := by
          simp only [List.length_drop]
          omega
        rw [ih (l.drop batch) hdrop]
        rw [← List.map_append, List.take_append_drop]
  exact key pts.length pts le_rfl

theorem haversine_m_self (lat lon : ℝ) : haversine_m lat lon lat lon = 0 := by
  simp [haversine_m]

theorem haversine_m_nonneg (lat1 lon1 lat2 lon2 : ℝ) :
    0 ≤ haversine_m lat1 lon1 lat2 lon2 := by
  unfold haversine_m
  have h1 : (0:ℝ) ≤ Real.arcsin (Real.sqrt (
      Real.sin ((radians lat2 - radians lat1) / 2) ^ 2 +
      Real.cos (radians lat1) * Real.cos (radians lat2) *
        Real.sin ((radians lon2 - radians lon1) / 2) ^ 2)) :=
    Real.arcsin_nonneg.mpr (Real.sqrt_nonneg _)
  nlinarith

theorem foldl_min_eq_zero (l : List ℝ) (a : ℝ) (ha : 0 ≤ a)
    (hall : ∀ x ∈ l, 0 ≤ x) (hzero : a = 0 ∨ 0 ∈ l) :
    l.foldl min a = 0 := by
  induction l generalizing a with
  | nil =>
    rcases hzero with h | h
    · simpa using h
    · simp at h
  | cons x xs ih =>
    have hx : 0 ≤ x := hall x (List.mem_cons_self x xs)
    have hxs : ∀ y ∈ xs, 0 ≤ y := fun y hy => hall y (List.mem_cons_of_mem x hy)
    simp only [List.foldl_cons]
    rcases hzero with h | h
    · exact ih (min a x) (le_min ha hx)
        hxs (Or.inl (by rw [h]; exact min_eq_left hx))
    · rcases List.mem_cons.mp h with h0 | h0
      · exact ih (min a x) (le_min ha hx)
          hxs (Or.inl (by rw [← h0]; exact min_eq_right ha))
      · exact ih (min a x) (le_min ha hx) hxs (Or.inr h0)

theorem row_min_self_mem (refs : List (ℝ × ℝ)) (p : ℝ × ℝ) (hp : p ∈ refs) :
    row_min refs p = some 0 := by
  match refs with
  | [] => simp at hp
  | q :: qs =>
    simp only [row_min, Option.some.injEq]
    rw [show qs.foldl (fun m r => min m (haversine_m p.1 p.2 r.1 r.2))
          (haversine_m p.1 p.2 q.1 q.2)
        = (qs.map fun r => haversine_m p.1 p.2 r.1 r.2).foldl min
          (haversine_m p.1 p.2 q.1 q.2) from (List.foldl_map _ _ _ _).symm]
    apply foldl_min_eq_zero
    · exact haversine_m_nonneg _ _ _ _
    · intro x hx
      rcases List.mem_map.mp hx with ⟨r, _, hr⟩
      exact hr ▸ haversine_m_nonneg _ _ _ _
    · rcases List.mem_cons.mp hp with h0 | h0
      · left
        have : p.1 = q.1 ∧ p.2 = q.2 := by
          constructor <;> rw [h0]
        rw [← this.1, ← this.2, haversine_m_self]
      · right
        refine List.mem_map.mpr ⟨p, h0, ?_⟩
        exact haversine_m_self _ _

/-- C6: for every record whose coordinate exactly equals some reference
point's coordinate, `_nearest_distance_m` returns a nearest distance of
exactly 0 for that record (hence within any sub-meter tolerance), with the
distance computed by the haversine half-angle formula on a sphere of radius
6,371,000 m after degree-to-radian conversion. -/
theorem C6_exact_match_distance_zero (pts refs : List (ℝ × ℝ)) (batch i : ℕ)
    (p : ℝ × ℝ) (hb : batch ≠ 0) (hi : pts[i]? = some p) (hp : p ∈ refs) :
    ∃ out, nearest_distance_m pts (some refs) batch = .ok out ∧
      out[i]? = some (some 0) := by
  have hne : ¬ refs.isEmpty := by
    cases refs with
    | nil => simp at hp
    | cons q qs => simp
  refine ⟨batch_loop refs pts batch, ?_, ?_⟩
  · simp [nearest_distance_m, hne, hb]
  · rw [batch_loop_eq_map _ _ hb, List.getElem?_map, hi]
    simp [row_min_self_mem refs p hp]

/-- C6 witness: a record at (1, 2) with a reference point at (1, 2) gets
nearest distance exactly 0. -/
theorem C6_exact_match_distance_zero_witness :
    ∃ out, nearest_distance_m [((1:ℝ), 2)] (some [((1:ℝ), 2)]) 1 = .ok out ∧
      out[0]? = some (some 0) :=
  C6_exact_match_distance_zero [((1:ℝ), 2)] [((1:ℝ), 2)] 1 0 ((1:ℝ), 2)
    one_ne_zero rfl (by simp)

/-- C7 counterexample: the claim quantifies over every record table, but for
the empty record table (with a non-empty reference table) the run with batch
size equal to the record count (0) raises `ValueError` from `range(0, 0, 0)`,
while batch size 1 returns an empty sequence, so the two results differ. -/
theorem C7_counterexample :
    nearest_distance_m ([] : List (ℝ × ℝ)) (some [((0:ℝ), 0)]) 1 ≠
      nearest_distance_m ([] : List (ℝ × ℝ)) (some [((0:ℝ), 0)]) 0 := by
  simp [nearest_distance_m, batch_loop_nil]

/-- C7 amended: for every NON-EMPTY record table and every reference table,
batch size 1 and batch size equal to the full record count yield identical
distance sequences aligned to input order. -/
theorem C7_batch_size_invariance (pts refs : List (ℝ × ℝ)) (hne : pts ≠ []) :
    nearest_distance_m pts (some refs) 1 =
      nearest_distance_m pts (some refs) pts.length := by
  have hlen : pts.length ≠ 0 := by
    have := List.length_pos.mpr hne
    omega
  by_cases hr : refs.isEmpty
  · simp [nearest_distance_m, hr]
  · simp only [nearest_distance_m, hr, if_false, one_ne_zero, hlen]
    simp [batch_loop_eq_map _ _ one_ne_zero, batch_loop_eq_map _ _ hlen]

/-- C7 witness: on a concrete two-record table, batch size 1 and batch size
2 agree. -/
theorem C7_batch_size_invariance_witness :
    nearest_distance_m [((0:ℝ), 0), ((1:ℝ), 1)] (some [((0:ℝ), 0)]) 1 =
      nearest_distance_m [((0:ℝ), 0), ((1:ℝ), 1)] (some [((0:ℝ), 0)]) 2 := by
  have h := C7_batch_size_invariance [((0:ℝ), 0), ((1:ℝ), 1)] [((0:ℝ), 0)]
    (by simp)
  simpa using h

/-- C8: if the reference-point table is absent (`None`) or empty, the result
is all-absent (`NaN`) with length equal to the number of input records; the
batch loop is never entered. -/
theorem C8_empty_refs_all_absent (pts : List (ℝ × ℝ)) (batch : ℕ) :
    nearest_distance_m pts none batch = .ok (List.replicate pts.length none) ∧
    nearest_distance_m pts (some []) batch =
      .ok (List.replicate pts.length none) := by
  constructor <;> simp [nearest_distance_m]

/-- One coordinate cell of the record frame.  `na` is `NaN` (the only value
`isna` reports); `num q` is a numeric value, covering cells that are already
numeric and numeric-parseable text (both pass `pd.to_numeric` to the same
number); `text s` is a value that `pd.to_numeric(errors="coerce")` cannot
parse and maps to `NaN` — crucially, such a cell is NOT `NaN` yet, so the
centroid mask treats it as present. -/
inductive Cell where
  | na
  | num (q : ℚ)
  | text (s : String)
deriving DecidableEq

/-- `pd.isna` on one cell. -/
def Cell.isna : Cell → Bool
  | .na => true
  | .num _ => false
  | .text _ => false

/-- `pd.to_numeric(·, errors="coerce")` on one cell: numbers survive,
everything else becomes `NaN`. -/
def Cell.to_numeric : Cell → Cell
  | .num q => .num q
  | .na => .na
  | .text _ => .na

structure HdbRecord where
  block : String
  street_name : String
  town : String
  lat : Cell
  lon : Cell
deriving DecidableEq

/-- One row of the optional precise block+street geocode table after
`_load_optional_csv`, which drops rows with a missing coordinate, so both
coordinates are present. -/
structure GeoRow where
  block : String
  street_name : String
  lat : ℚ
  lon : ℚ
deriving DecidableEq

/-- TOWN_CENTROIDS (features.py lines 72-97): the static 24-town centroid
table used by the fallback step. -/
def TOWN_CENTROIDS : List (String × ℚ × ℚ) := [
  ("ANG MO KIO", 1.3691, 103.8454),
  ("BEDOK", 1.3236, 103.9273),
  ("BISHAN", 1.3509, 103.8485),
  ("BUKIT BATOK", 1.3496, 103.7496),
  ("BUKIT MERAH", 1.2826, 103.8179),
  ("BUKIT PANJANG", 1.3786, 103.7639),
  ("BUKIT TIMAH", 1.3294, 103.8021),
  ("CENTRAL AREA", 1.2920, 103.8545),
  ("CHOA CHU KANG", 1.3854, 103.7443),
  ("CLEMENTI", 1.3151, 103.7643),
  ("GEYLANG", 1.3181, 103.8839),
  ("HOUGANG", 1.3612, 103.8930),
  ("JURONG EAST", 1.3333, 103.7430),
  ("JURONG WEST", 1.3496, 103.7080),
  ("KALLANG/WHAMPOA", 1.3133, 103.8641),
  ("MARINE PARADE", 1.3030, 103.9010),
  ("PASIR RIS", 1.3730, 103.9490),
  ("PUNGGOL", 1.4043, 103.9020),
  ("QUEENSTOWN", 1.2941, 103.7851),
  ("SEMBAWANG", 1.4491, 103.8201),
  ("SENGKANG", 1.3911, 103.8950),
  ("SERANGOON", 1.3524, 103.8677),
  ("TAMPINES", 1.3536, 103.9455),
  ("TOA PAYOH", 1.3347, 103.8530)]

/-- Dictionary lookup `TOWN_CENTROIDS[t]` (a Python dict has unique keys, so
first match is the match). -/
def lookup_centroid (cents : List (String × ℚ × ℚ)) (t : String) :
    Option (ℚ × ℚ) :=
  match cents with
  | [] => none
  | c :: cs => if c.1 = t then some (c.2.1, c.2.2) else lookup_centroid cs t

/-- Python `str.upper()` restricted to the ASCII town labels used here,
modelled character by character (kernel-reducible, unlike `String.toUpper`
whose `mapAux` recursion does not evaluate definitionally). -/
def py_upper (s : String) : String := String.mk (s.data.map Char.toUpper)

/-- The town-centroid fallback (features.py lines 257-263): rows in
`mask = lat.isna() | lon.isna()` get BOTH components assigned from the
centroid of the upper-cased town, or both set to `NaN` when the town is not
in the table; rows outside `mask` — including rows whose cells hold
unparseable text, which `isna` does not flag — are untouched. -/
def centroid_fill (cents : List (String × ℚ × ℚ)) (r : HdbRecord) :
    HdbRecord :=
  if r.lat.isna || r.lon.isna then
    match lookup_centroid cents (py_upper r.town) with
    | some c => { r with lat := .num c.1, lon := .num c.2 }
    | none => { r with lat := .na, lon := .na }
  else r

/-- The trailing coercion (features.py lines 266-267), applied to the whole
column AFTER the centroid fallback: `pd.to_numeric(..., errors="coerce")` on
both coordinate fields. -/
def coerce_record (r : HdbRecord) : HdbRecord :=
  { r with lat := r.lat.to_numeric, lon := r.lon.to_numeric }

/-- Coordinate-resolution steps of `main` (features.py lines 231-267).
Records always carry lat/lon fields (created at lines 232-233 when missing).
When the precise geocode table is present and non-empty, the code executes
`hdb.merge(geo_df[...], on=["block","street_name"], how="left",
suffixes=("", ""))`; since both frames then contain the overlapping non-key
columns `lat` and `lon` and both suffixes are empty, pandas raises
`ValueError: columns overlap but no suffix specified`, modelled as `.error`.
The `lat_y`/`lon_y` combine branch at lines 248-251 is unreachable.
Otherwise the town-centroid fallback runs on the mask computed from the raw
cells (line 257), and only AFTERWARDS are both coordinate columns coerced
with `pd.to_numeric(errors="coerce")` (lines 266-267), turning unparseable
text into `NaN`. -/
def resolve_coords (records : List HdbRecord) (geo : Option (List GeoRow))
    (cents : List (String × ℚ × ℚ)) : Except String (List HdbRecord) :=
  match geo with
  | some gs =>
    if gs.isEmpty then
      .ok ((records.map (centroid_fill cents)).map coerce_record)
    else .error "columns overlap but no suffix specified"
  | none => .ok ((records.map (centroid_fill cents)).map coerce_record)

theorem centroid_fill_idem (cents : List (String × ℚ × ℚ)) (r : HdbRecord) :
    centroid_fill cents (centroid_fill cents r) = centroid_fill cents r := by
  obtain ⟨b, s, t, la, lo⟩ := r
  cases hc : lookup_centroid cents (py_upper t) with
  | none =>
    cases la <;> cases lo <;> simp [centroid_fill, Cell.isna, hc]
  | some c =>
    cases la <;> cases lo <;> simp [centroid_fill, Cell.isna, hc]

/-- When the coercion is already the identity on a record (its coordinate
cells hold no unparseable text), the filled record is also coercion-stable:
the fill writes only numbers or `NaN`. -/
theorem coerce_record_centroid_fill (cents : List (String × ℚ × ℚ))
    (r : HdbRecord) (hr : coerce_record r = r) :
    coerce_record (centroid_fill cents r) = centroid_fill cents r := by
  obtain ⟨b, s, t, la, lo⟩ := r
  cases hc : lookup_centroid cents (py_upper t) with
  | none =>
    cases la <;> cases lo <;>
      simp_all [centroid_fill, coerce_record, Cell.isna, Cell.to_numeric, hc]
  | some c =>
    cases la <;> cases lo <;>
      simp_all [centroid_fill, coerce_record, Cell.isna, Cell.to_numeric, hc]

/-- C2 (code bug): with a record matching a row of the precise block+street
geocode table, the pipeline does not assign the precise coordinate — the
pandas merge with `suffixes=("", "")` raises `ValueError` because the record
frame and the geocode frame both carry `lat`/`lon` columns, so the run
crashes; the fill logic guarded by `lat_y`/`lon_y` is dead code. -/
theorem C2_precise_geocode_merge_crash :
    resolve_coords [⟨"1", "A ST", "BISHAN", Cell.na, Cell.na⟩]
      (some [⟨"1", "A ST", (1.35 : ℚ), (103.85 : ℚ)⟩]) TOWN_CENTROIDS =
      .error "columns overlap but no suffix specified" := rfl

/-- C4 counterexample: the pipeline is NOT idempotent.  A record whose
coordinate cells hold unparseable text is not in the centroid mask (the
text is not `NaN` when the mask is computed at line 257), so run 1 skips
the fill and only the trailing coercion (lines 266-267) turns the text into
`NaN`; run 2 on that output sees the `NaN`, and the centroid fill now
assigns the BISHAN centroid — the second run changes the table. -/
theorem C4_counterexample :
    resolve_coords [⟨"1", "A ST", "BISHAN", Cell.text "abc", Cell.text "def"⟩]
        none TOWN_CENTROIDS =
      .ok [⟨"1", "A ST", "BISHAN", Cell.na, Cell.na⟩] ∧
    resolve_coords [⟨"1", "A ST", "BISHAN", Cell.na, Cell.na⟩]
        none TOWN_CENTROIDS =
      .ok [⟨"1", "A ST", "BISHAN", Cell.num (1.3509 : ℚ),
        Cell.num (103.8485 : ℚ)⟩] ∧
    (⟨"1", "A ST", "BISHAN", Cell.na, Cell.na⟩ : HdbRecord) ≠
      ⟨"1", "A ST", "BISHAN", Cell.num (1.3509 : ℚ),
        Cell.num (103.8485 : ℚ)⟩ :=
  ⟨by rfl, by rfl, by decide⟩

/-- C4 amended: the pipeline is idempotent on record tables whose coordinate
cells contain no unparseable text (each cell is already numeric or absent,
i.e. the `pd.to_numeric` coercion is the identity on the input): if such a
run succeeds with an output, running the pipeline on that output with the
same side tables succeeds and returns it unchanged, so every coordinate
resolved in the first run is unchanged by the second run. -/
theorem C4_resolve_coords_idempotent (records : List HdbRecord)
    (geo : Option (List GeoRow)) (cents : List (String × ℚ × ℚ))
    (out : List HdbRecord)
    (hclean : ∀ r ∈ records, coerce_record r = r)
    (h : resolve_coords records geo cents = .ok out) :
    resolve_coords out geo cents = .ok out := by
  have key : ∀ l : List HdbRecord, (∀ r ∈ l, coerce_record r = r) →
      (((l.map (centroid_fill cents)).map coerce_record).map
        (centroid_fill cents)).map coerce_record =
        (l.map (centroid_fill cents)).map coerce_record := by
    intro l
    induction l with
    | nil =>
      intro _
      simp
    | cons x xs ih =>
      intro hl
      have hx := hl x (List.mem_cons_self _ _)
      have hxs : ∀ r ∈ xs, coerce_record r = r :=
        fun r hr => hl r (List.mem_cons_of_mem _ hr)
      simp only [List.map_cons, List.cons.injEq]
      constructor
      · rw [coerce_record_centroid_fill cents x hx, centroid_fill_idem,
          coerce_record_centroid_fill cents x hx]
      · exact ih hxs
  cases geo with
  | none =>
    simp only [resolve_coords, Except.ok.injEq] at h
    subst h
    simp only [resolve_coords, Except.ok.injEq]
    exact key records hclean
  | some gs =>
    by_cases hg : gs.isEmpty = true
    · simp only [resolve_coords, hg, if_true, Except.ok.injEq] at h
      subst h
      simp only [resolve_coords, hg, if_true, Except.ok.injEq]
      exact key records hclean
    · simp [resolve_coords, hg] at h

/-- C4 witness: a BISHAN record with absent coordinates (no text cells)
resolves to the BISHAN centroid in run 1, and run 2 on that output returns
it unchanged. -/
theorem C4_resolve_coords_idempotent_witness :
    resolve_coords
      [⟨"1", "A ST", "BISHAN", Cell.num (1.3509 : ℚ),
        Cell.num (103.8485 : ℚ)⟩] none TOWN_CENTROIDS =
      .ok [⟨"1", "A ST", "BISHAN", Cell.num (1.3509 : ℚ),
        Cell.num (103.8485 : ℚ)⟩] :=
  C4_resolve_coords_idempotent [⟨"1", "A ST", "BISHAN", Cell.na, Cell.na⟩]
    none TOWN_CENTROIDS _
    (by
      intro r hr
      rw [List.mem_singleton] at hr
      subst hr
      rfl)
    (by rfl)

/-- C9: the town-centroid fallback step never overwrites a record whose
latitude and longitude are both present (not `NaN`, as the mask sees them —
unparseable text counts as present at this point), and it writes only to
records in which at least one coordinate component is absent. -/
theorem C9_centroid_never_overwrites (cents : List (String × ℚ × ℚ))
    (r : HdbRecord) :
    (r.lat.isna = false → r.lon.isna = false →
      centroid_fill cents r = r) ∧
    (centroid_fill cents r ≠ r → r.lat = Cell.na ∨ r.lon = Cell.na) := by
  constructor
  · intro h1 h2
    simp [centroid_fill, h1, h2]
  · intro hne
    by_contra hc
    push_neg at hc
    have h1 : r.lat.isna = false := by
      cases hl : r.lat with
      | na => exact absurd hl hc.1
      | num q => rfl
      | text s => rfl
    have h2 : r.lon.isna = false := by
      cases ho : r.lon with
      | na => exact absurd ho hc.2
      | num q => rfl
      | text s => rfl
    exact hne (by simp [centroid_fill, h1, h2])

/-- C9 witness: a record with both coordinates present passes the centroid
fallback unchanged. -/
theorem C9_centroid_never_overwrites_witness :
    centroid_fill TOWN_CENTROIDS
      ⟨"1", "A ST", "BISHAN", Cell.num 1, Cell.num 2⟩ =
      ⟨"1", "A ST", "BISHAN", Cell.num 1, Cell.num 2⟩ :=
  (C9_centroid_never_overwrites TOWN_CENTROIDS
    ⟨"1", "A ST", "BISHAN", Cell.num 1, Cell.num 2⟩).1 rfl rfl

end Features

namespace MrtReal

/-- One synthesized or parsed MRT reference row (station label, exit code,
coordinates; any component may be absent in raw rows). -/
structure MrtRow where
  station_name : Option String
  exit_code : Option String
  lat : Option ℚ
  lon : Option ℚ
deriving DecidableEq

/-- `_write_csv` (mrt_real.py lines 52-58): drops rows with a missing
coordinate before writing; the value of the function is the table written to
the CSV path it returns. -/
def write_csv (rows : List MrtRow) : List MrtRow :=
  rows.filter (fun r => r.lat.isSome && r.lon.isSome)

/-- TOWN_CENTROIDS (mrt_real.py lines 11-38): 26 towns used by the proxy
tier. -/
def TOWN_CENTROIDS : List (String × ℚ × ℚ) := [
  ("ANG MO KIO", 1.3691, 103.8454),
  ("BEDOK", 1.3236, 103.9273),
  ("BISHAN", 1.3508, 103.8485),
  ("BUKIT BATOK", 1.3502, 103.7513),
  ("BUKIT MERAH", 1.2773, 103.8195),
  ("BUKIT PANJANG", 1.3786, 103.7623),
  ("BUKIT TIMAH", 1.3294, 103.8021),
  ("CENTRAL AREA", 1.2893, 103.8519),
  ("CHOA CHU KANG", 1.3854, 103.7445),
  ("CLEMENTI", 1.3151, 103.7643),
  ("GEYLANG", 1.3146, 103.8935),
  ("HOUGANG", 1.3612, 103.8863),
  ("JURONG EAST", 1.3331, 103.7436),
  ("JURONG WEST", 1.3405, 103.7090),
  ("KALLANG/WHAMPOA", 1.3138, 103.8574),
  ("MARINE PARADE", 1.3013, 103.9050),
  ("PASIR RIS", 1.3721, 103.9490),
  ("PUNGGOL", 1.4050, 103.9020),
  ("QUEENSTOWN", 1.2941, 103.7865),
  ("SEMBAWANG", 1.4491, 103.8190),
  ("SENGKANG", 1.3933, 103.8957),
  ("SERANGOON", 1.3522, 103.8670),
  ("TAMPINES", 1.3526, 103.9447),
  ("TOA PAYOH", 1.3333, 103.8500),
  ("WOODLANDS", 1.4360, 103.7865),
  ("YISHUN", 1.4304, 103.8353)]

/-- Helper for Python `str.title()`: uppercase an alphabetic character that
does not follow another alphabetic character, lowercase the rest. -/
def py_title_aux : List Char → Bool → List Char
  | [], _ => []
  | c :: cs, prevAlpha =>
    (if c.isAlpha then (if prevAlpha then c.toLower else c.toUpper) else c)
      :: py_title_aux cs c.isAlpha

/-- Python `str.title()` for the ASCII town labels used here. -/
def py_title (s : String) : String := String.mk (py_title_aux s.data false)

/-- `_proxy_from_town_centroids` (mrt_real.py lines 131-145): one labeled
proxy point per town centroid, all with coordinates; defined to never
fail. -/
def proxy_from_town_centroids : List MrtRow :=
  TOWN_CENTROIDS.map (fun tc =>
    { station_name := some ("MRT Proxy - " ++ py_title tc.1),
      exit_code := none,
      lat := some tc.2.1,
      lon := some tc.2.2 })

/-- Environment of one `fetch_mrt_exits_real` run.  `tier1` is the outcome
of the attempt-1 body (data.gov poll-download, request, and row building:
`.error` = an exception was raised inside the `try` block, `.ok rows` = the
rows built from the fetched GeoJSON features).  `local_file` is the state of
`data/raw/mrt/mrt_exits.(geojson|json)`: `none` = absent, `some (.error e)`
= present but `json.load` (or parsing) raises, `some (.ok rows)` = parses to
`rows`.  `overpass` gives, per endpoint attempt in order, `none` = the
request raised (caught inside `_overpass_try`) and `some rows` = the node
rows built from that endpoint's JSON (an empty or falsy JSON yields no
rows). -/
structure MrtEnv where
  tier1 : Except String (List MrtRow)
  local_file : Option (Except String (List MrtRow))
  overpass : List (Option (List MrtRow))

/-- `_overpass_try` (mrt_real.py lines 84-94): first endpoint whose request
succeeds; later endpoints are not consulted. -/
def first_some {α : Type} : List (Option α) → Option α
  | [] => none
  | some x :: _ => some x
  | none :: rest => first_some rest

/-- `_overpass_fallback` (mrt_real.py lines 96-129): `None` when every
mirror fails or the first successful mirror yields no rows; otherwise the
written table (rows lacking coordinates dropped only at write time). -/
def overpass_fallback (endpoints : List (Option (List MrtRow))) :
    Option (List MrtRow) :=
  match first_some endpoints with
  | none => none
  | some rows => if rows.isEmpty then none else some (write_csv rows)

/-- Tiers 2-4 of `fetch_mrt_exits_real`: attempt 2 (local file — note that
only absence is guarded; a parse exception from a present file propagates,
since `_try_parse_local_geojson` is called outside any `try`), attempt 3
(Overpass mirrors), attempt 4 (unconditional proxy). -/
def after_tier1 (env : MrtEnv) : Except String (List MrtRow) :=
  match env.local_file with
  | some (.ok rows) => .ok (write_csv rows)
  | some (.error e) => .error e
  | none =>
    match overpass_fallback env.overpass with
    | some t => .ok t
    | none => .ok (write_csv proxy_from_town_centroids)

/-- `fetch_mrt_exits_real` (mrt_real.py lines 147-193).  Attempt 1 is
wrapped in `try/except` (exceptions fall through); it returns the written
table whenever its RAW row list is non-empty — the non-emptiness test
`if rows:` precedes `_write_csv`'s dropping of coordinate-less rows. -/
def fetch_mrt_exits_real (env : MrtEnv) : Except String (List MrtRow) :=
  match env.tier1 with
  | .ok rows => if rows.isEmpty then after_tier1 env else .ok (write_csv rows)
  | .error _ => after_tier1 env

/-- C1 counterexample: when the remote tier yields one raw feature row that
lacks coordinates, the resolver returns a path to an EMPTY table — the
`if rows:` success test runs before coordinate-less rows are dropped — so it
is not true that every combination of tier outcomes yields at least one row
with coordinates. -/
theorem C1_counterexample :
    fetch_mrt_exits_real ⟨.ok [⟨some "X", none, none, none⟩], none, []⟩ =
      .ok [] := rfl

/-- C1 amended: when the remote tier raises or yields no raw rows, the local
artifact is absent, and every Overpass endpoint attempt fails (or the first
successful one yields no rows), the terminal proxy tier returns one labeled
point per town centroid: a 26-row table in which every row has a label and
both coordinates.  (The unconditional proxy guarantee holds only when the
earlier tiers fail outright; a tier succeeding with only coordinate-less raw
rows yields an empty table, per the counterexample.) -/
theorem C1_proxy_tier_guarantee (env : MrtEnv)
    (h1 : (∃ e, env.tier1 = .error e) ∨ env.tier1 = .ok [])
    (h2 : env.local_file = none)
    (h3 : (first_some env.overpass).getD [] = []) :
    fetch_mrt_exits_real env = .ok (write_csv proxy_from_town_centroids) ∧
    (write_csv proxy_from_town_centroids).length = 26 ∧
    ∀ r ∈ write_csv proxy_from_town_centroids,
      r.station_name.isSome = true ∧ r.lat.isSome = true ∧
        r.lon.isSome = true := by
  refine ⟨?_, by decide, by decide⟩
  have hover : overpass_fallback env.overpass = none := by
    unfold overpass_fallback
    cases hf : first_some env.overpass with
    | none => rfl
    | some rows =>
      rw [hf] at h3
      simp only [Option.getD_some] at h3
      subst h3
      rfl
  have htail : after_tier1 env = .ok (write_csv proxy_from_town_centroids) := by
    unfold after_tier1
    rw [h2, hover]
  rcases h1 with ⟨e, he⟩ | he <;> rw [fetch_mrt_exits_real, he] <;> simp [htail]

/-- C1 witness: with the remote tier raising, the local file absent and no
Overpass endpoints, the resolver returns the 26-row proxy table. -/
theorem C1_proxy_tier_guarantee_witness :
    fetch_mrt_exits_real ⟨.error "network", none, []⟩ =
      .ok (write_csv proxy_from_town_centroids) ∧
    (write_csv proxy_from_town_centroids).length = 26 ∧
    ∀ r ∈ write_csv proxy_from_town_centroids,
      r.station_name.isSome = true ∧ r.lat.isSome = true ∧
        r.lon.isSome = true :=
  C1_proxy_tier_guarantee ⟨.error "network", none, []⟩
    (Or.inl ⟨"network", rfl⟩) rfl rfl

/-- C3 counterexample: a parse error in the local-artifact tier is NOT
caught — `_try_parse_local_geojson` is called outside any `try`, and only
file absence makes it fall through — so the exception propagates to the
caller of `fetch_mrt_exits_real`, contradicting the claim that no exception
from any tier propagates. -/
theorem C3_counterexample :
    fetch_mrt_exits_real
      ⟨.error "network down", some (.error "Expecting value"), []⟩ =
      .error "Expecting value" := rfl

/-- C3 amended: exceptions raised in the remote data.gov tier and in each
Overpass endpoint attempt are caught and treated as tier failure; provided
the local artifact file does not raise a parse error (it is absent or parses
cleanly), no exception propagates: the resolver always returns a table. -/
theorem C3_tier_exceptions_caught (env : MrtEnv)
    (h : ∀ e, env.local_file ≠ some (.error e)) :
    (fetch_mrt_exits_real env).isOk = true := by
  have htail : (after_tier1 env).isOk = true := by
    unfold after_tier1
    cases hl : env.local_file with
    | none =>
      cases overpass_fallback env.overpass <;> rfl
    | some res =>
      cases res with
      | ok rows => rfl
      | error e => exact absurd hl (h e)
  cases ht : env.tier1 with
  | ok rows =>
    simp only [fetch_mrt_exits_real, ht]
    by_cases hr : rows.isEmpty = true
    · simpa [hr] using htail
    · simp [hr, Except.isOk, Except.toBool]
  | error e =>
    simpa [fetch_mrt_exits_real, ht] using htail

/-- C3 witness: remote tier raises, local file absent, single Overpass
attempt raises — all caught, and the run still returns a table. -/
theorem C3_tier_exceptions_caught_witness :
    (fetch_mrt_exits_real ⟨.error "timeout", none, [none]⟩).isOk = true :=
  C3_tier_exceptions_caught ⟨.error "timeout", none, [none]⟩
    (fun e h => by simp at h)

end MrtReal

namespace Geo

/-- Membership test `key in cache` for the in-memory cache dict, modelled as
an insertion-ordered association list. -/
def has_key (d : List (String × ℚ × ℚ)) (k : String) : Bool :=
  d.any (fun e => e.1 == k)

/-- Python dict assignment `cache[key] = coords`: overwrite in place when the
key exists (keeping its position), append otherwise. -/
def dict_insert (d : List (String × ℚ × ℚ)) (k : String) (v : ℚ × ℚ) :
    List (String × ℚ × ℚ) :=
  if has_key d k then d.map (fun e => if e.1 = k then (k, v) else e)
  else d ++ [(k, v)]

/-- The cache-loading loop of `cached_geocode_many` (geo.py lines 35-40):
each persisted row is written into the dict, a later duplicate key
overwriting an earlier one. -/
def load_cache (rows : List (String × ℚ × ℚ)) : List (String × ℚ × ℚ) :=
  rows.foldl (fun d e => dict_insert d e.1 e.2) []

/-- Python `str.strip()` for ASCII strings, modelled character by character
so that it evaluates in the kernel. -/
def py_strip (s : String) : String :=
  String.mk
    (((s.data.dropWhile Char.isWhitespace).reverse.dropWhile
      Char.isWhitespace).reverse)

/-- Outcome of one `cached_geocode_many` run: the in-memory mapping, the
newly resolved rows, and the trace of external lookups issued (in order). -/
structure GeoResult where
  cache : List (String × ℚ × ℚ)
  new_rows : List (String × ℚ × ℚ)
  lookups : List String
deriving DecidableEq

/-- The main loop of `cached_geocode_many` (geo.py lines 42-50): a key
already cached or blank after stripping is skipped; otherwise one external
lookup is issued (recorded in the trace); on success the coordinate is
cached and queued for appending, on failure (`geocode_onemap` returns
`None`, covering network errors, timeouts, malformed responses and empty
result sets) nothing is recorded. -/
def geocode_loop (oracle : String → Option (ℚ × ℚ)) :
    List String → List (String × ℚ × ℚ) → List (String × ℚ × ℚ) →
    List String → GeoResult
  | [], cache, new_rows, lookups => ⟨cache, new_rows, lookups⟩
  | v :: rest, cache, new_rows, lookups =>
    if has_key cache v = true ∨ py_strip v = "" then
      geocode_loop oracle rest cache new_rows lookups
    else
      match oracle v with
      | some c =>
        geocode_loop oracle rest (dict_insert cache v c)
          (new_rows ++ [(v, c)]) (lookups ++ [v])
      | none => geocode_loop oracle rest cache new_rows (lookups ++ [v])

/-- `cached_geocode_many` (geo.py lines 33-60).  `oracle` is the outcome of
`geocode_onemap` per key; `file` is the persisted cache CSV (`none` =
absent).  The second component is the persisted file after the run: the
pre-existing rows followed by the newly resolved rows (`to_csv(mode="a")`
appends; when nothing new was resolved the file is left untouched, and
appending the empty list models that). -/
def cached_geocode_many (oracle : String → Option (ℚ × ℚ))
    (values : List String) (file : Option (List (String × ℚ × ℚ))) :
    GeoResult × List (String × ℚ × ℚ) :=
  let res := geocode_loop oracle values (load_cache (file.getD [])) [] []
  (res, (file.getD []) ++ res.new_rows)

theorem has_key_iff (d : List (String × ℚ × ℚ)) (k : String) :
    has_key d k = true ↔ k ∈ d.map Prod.fst := by
  simp [has_key, List.any_eq_true, List.mem_map]

theorem keys_dict_insert (d : List (String × ℚ × ℚ)) (k : String)
    (v : ℚ × ℚ) :
    (dict_insert d k v).map Prod.fst =
      if has_key d k = true then d.map Prod.fst
      else d.map Prod.fst ++ [k] := by
  unfold dict_insert
  by_cases h : has_key d k = true
  · rw [if_pos h, if_pos h, List.map_map]
    apply List.map_congr_left
    intro e _
    by_cases he : e.1 = k
    · simp [he]
    · simp [he]
  · rw [if_neg h, if_neg h, List.map_append]
    rfl

theorem mem_keys_dict_insert (d : List (String × ℚ × ℚ)) (k k' : String)
    (v : ℚ × ℚ) :
    k' ∈ (dict_insert d k v).map Prod.fst ↔
      k' = k ∨ k' ∈ d.map Prod.fst := by
  rw [keys_dict_insert]
  by_cases h : has_key d k = true
  · rw [if_pos h]
    constructor
    · exact Or.inr
    · rintro (rfl | hm)
      · exact (has_key_iff _ _).mp h
      · exact hm
  · rw [if_neg h]
    simp [List.mem_append, or_comm]

theorem mem_keys_load_cache (rows : List (String × ℚ × ℚ)) (k : String) :
    k ∈ (load_cache rows).map Prod.fst ↔ k ∈ rows.map Prod.fst := by
  have key : ∀ (rs : List (String × ℚ × ℚ)) (d : List (String × ℚ × ℚ)),
      k ∈ ((rs.foldl (fun d e => dict_insert d e.1 e.2) d).map Prod.fst) ↔
        k ∈ d.map Prod.fst ∨ k ∈ rs.map Prod.fst := by
    intro rs
    induction rs with
    | nil => simp
    | cons e es ih =>
      intro d
      simp only [List.foldl_cons, ih, mem_keys_dict_insert, List.map_cons,
        List.mem_cons]
      tauto
  simpa using key rows []

theorem nodup_append_singleton {α : Type} (l : List α) (a : α) :
    (l ++ [a]).Nodup ↔ l.Nodup ∧ a ∉ l := by
  simp [List.nodup_append]

/-- Invariant of the geocoder loop: `K` is the fixed key set of the
persisted file; the keys of file plus queued rows stay duplicate-free and
all live in the in-memory cache, and a key whose lookup succeeds is looked
up at most once. -/
theorem geocode_loop_invariant (oracle : String → Option (ℚ × ℚ))
    (K : List String) :
    ∀ (values : List String) cache new_rows lookups,
    (K ++ new_rows.map Prod.fst).Nodup →
    (∀ k, k ∈ K ++ new_rows.map Prod.fst → has_key cache k = true) →
    (∀ k, (oracle k).isSome = true →
      lookups.count k ≤ 1 ∧ (k ∈ lookups → has_key cache k = true)) →
    ((K ++ (geocode_loop oracle values cache new_rows lookups).new_rows.map
        Prod.fst).Nodup ∧
      (∃ tail, (geocode_loop oracle values cache new_rows lookups).new_rows =
        new_rows ++ tail) ∧
      ∀ k, (oracle k).isSome = true →
        (geocode_loop oracle values cache new_rows lookups).lookups.count k
          ≤ 1) := by
  intro values
  induction values with
  | nil =>
    intro cache new_rows lookups hnd hcache hlk
    exact ⟨hnd, ⟨[], by simp [geocode_loop]⟩, fun k hk => (hlk k hk).1⟩
  | cons v rest ih =>
    intro cache new_rows lookups hnd hcache hlk
    by_cases hskip : has_key cache v = true ∨ py_strip v = ""
    · simp only [geocode_loop, if_pos hskip]
      exact ih cache new_rows lookups hnd hcache hlk
    · simp only [geocode_loop, if_neg hskip]
      push_neg at hskip
      obtain ⟨hn, _⟩ := hskip
      cases ho : oracle v with
      | some c =>
        have hvnot : v ∉ K ++ new_rows.map Prod.fst := by
          intro hmem
          exact hn (hcache v hmem)
        have hnd' : (K ++ (new_rows ++ [(v, c)]).map Prod.fst).Nodup := by
          rw [List.map_append, ← List.append_assoc]
          exact (nodup_append_singleton _ _).mpr ⟨hnd, hvnot⟩
        have hcache' : ∀ k, k ∈ K ++ (new_rows ++ [(v, c)]).map Prod.fst →
            has_key (dict_insert cache v c) k = true := by
          intro k hk
          rw [has_key_iff, mem_keys_dict_insert]
          rw [List.map_append, ← List.append_assoc, List.mem_append] at hk
          rcases hk with hk | hk
          · exact Or.inr ((has_key_iff _ _).mp (hcache k hk))
          · simp at hk
            exact Or.inl hk
        have hlk' : ∀ k, (oracle k).isSome = true →
            (lookups ++ [v]).count k ≤ 1 ∧
              (k ∈ lookups ++ [v] → has_key (dict_insert cache v c) k
                = true) := by
          intro k hk
          by_cases hkv : k = v
          · subst hkv
            have hknot : k ∉ lookups := by
              intro hmem
              exact hn ((hlk k hk).2 hmem)
            constructor
            · rw [List.count_append]
              have : lookups.count k = 0 := List.count_eq_zero.mpr hknot
              simp [this]
            · intro _
              rw [has_key_iff, mem_keys_dict_insert]
              exact Or.inl rfl
          · constructor
            · rw [List.count_append]
              have : ([v] : List String).count k = 0 :=
                List.count_eq_zero.mpr (by simp [hkv])
              have h1 := (hlk k hk).1
              omega
            · intro hmem
              rw [List.mem_append] at hmem
              rcases hmem with hmem | hmem
              · rw [has_key_iff, mem_keys_dict_insert]
                exact Or.inr ((has_key_iff _ _).mp ((hlk k hk).2 hmem))
              · simp at hmem
                exact absurd hmem hkv
        obtain ⟨a1, ⟨tl, htl⟩, a3⟩ :=
          ih (dict_insert cache v c) (new_rows ++ [(v, c)]) (lookups ++ [v])
            hnd' hcache' hlk'
        exact ⟨a1, ⟨(v, c) :: tl, by rw [htl, List.append_assoc]; rfl⟩, a3⟩
      | none =>
        have hlk' : ∀ k, (oracle k).isSome = true →
            (lookups ++ [v]).count k ≤ 1 ∧
              (k ∈ lookups ++ [v] → has_key cache k = true) := by
          intro k hk
          have hkv : k ≠ v := by
            intro h
            rw [h, ho] at hk
            simp at hk
          constructor
          · rw [List.count_append]
            have : ([v] : List String).count k = 0 :=
              List.count_eq_zero.mpr (by simp [hkv])
            have h1 := (hlk k hk).1
            omega
          · intro hmem
            rw [List.mem_append] at hmem
            rcases hmem with hmem | hmem
            · exact (hlk k hk).2 hmem
            · simp at hmem
              exact absurd hmem hkv
        exact ih cache new_rows (lookups ++ [v]) hnd hcache hlk'

/-- C5 counterexample: for the key sequence ["A", "A"] with an oracle that
fails to resolve "A" (e.g. the service returns an empty result list), the
geocoder issues TWO external lookups for "A": an unresolved key is not
cached, so the repeat occurrence misses the cache and retries. -/
theorem C5_counterexample :
    (cached_geocode_many (fun _ => none) ["A", "A"] none).1.lookups =
      ["A", "A"] := rfl

/-- C5 amended: a repeated key is looked up at most once PROVIDED its lookup
succeeds (or it is already cached); a key whose lookup fails is retried on
each later occurrence.  Moreover, if the persisted cache file has no
duplicate keys before the run, it has none after, and the run only appends:
the pre-existing rows are kept unchanged as the head of the file. -/
theorem C5_cache_correctness (oracle : String → Option (ℚ × ℚ))
    (values : List String) (file_rows : List (String × ℚ × ℚ))
    (hnd : (file_rows.map Prod.fst).Nodup) :
    (((cached_geocode_many oracle values (some file_rows)).2).map
      Prod.fst).Nodup ∧
    (∃ tail, (cached_geocode_many oracle values (some file_rows)).2 =
      file_rows ++ tail) ∧
    (∀ k, (oracle k).isSome = true →
      ((cached_geocode_many oracle values
        (some file_rows)).1).lookups.count k ≤ 1) := by
  have inv := geocode_loop_invariant oracle (file_rows.map Prod.fst) values
    (load_cache file_rows) [] []
    (by simpa using hnd)
    (by
      intro k hk
      simp only [List.map_nil, List.append_nil] at hk
      rw [has_key_iff, mem_keys_load_cache]
      exact hk)
    (by intro k _; simp)
  obtain ⟨a1, _, a3⟩ := inv
  refine ⟨?_, ⟨(geocode_loop oracle values (load_cache file_rows) []
    []).new_rows, rfl⟩, a3⟩
  simpa [cached_geocode_many, List.map_append] using a1

/-- C5 witness: with an always-succeeding oracle, the repeated key "A" is
looked up once, and a pre-existing one-row cache file stays duplicate-free
and keeps its head row. -/
theorem C5_cache_correctness_witness :
    (((cached_geocode_many (fun _ => some ((1:ℚ), (2:ℚ))) ["A", "A"]
      (some [("B", (5:ℚ), (6:ℚ))])).2).map Prod.fst).Nodup ∧
    (∃ tail, (cached_geocode_many (fun _ => some ((1:ℚ), (2:ℚ))) ["A", "A"]
      (some [("B", (5:ℚ), (6:ℚ))])).2 = [("B", (5:ℚ), (6:ℚ))] ++ tail) ∧
    (∀ k, ((fun (_ : String) => some ((1:ℚ), (2:ℚ))) k).isSome = true →
      ((cached_geocode_many (fun _ => some ((1:ℚ), (2:ℚ))) ["A", "A"]
        (some [("B", (5:ℚ), (6:ℚ))])).1).lookups.count k ≤ 1) :=
  C5_cache_correctness (fun _ => some ((1:ℚ), (2:ℚ))) ["A", "A"]
    [("B", (5:ℚ), (6:ℚ))] (by decide)

end Geo

namespace HdbReal

/-- One service response to a `datastore_search` request: HTTP status code
and (for successful statuses) the parsed `result.records` list, with records
abstracted to tokens. -/
structure CkanResp where
  code : ℕ
  records : List ℕ
deriving DecidableEq

/-- Outcome of a `_ckan_fetch_all` run: the concatenated records, a raised
error (`RuntimeError` or `requests` HTTPError from `raise_for_status`), or
exhaustion of the given response sequence (the loop would issue another
request). -/
inductive FetchOut where
  | ok (recs : List ℕ)
  | err (msg : String)
  | needsMore
deriving DecidableEq

/-- `_ckan_fetch_all` (hdb_real.py lines 15-63): the paging loop, consuming
one response per request.  On HTTP 422 with `limit > min_limit` the limit is
halved (never below `min_limit`) and the request retried; other error
statuses raise; an empty record page ends pagination (raising RuntimeError
when nothing was collected overall); a short page ends pagination with the
collected frames; a full page continues with an advanced offset. -/
def ckan_fetch_all (resps : List CkanResp) (limit offset min_limit : ℕ)
    (frames : List (List ℕ)) : FetchOut :=
  match resps with
  | [] => .needsMore
  | r :: rest =>
    if r.code = 422 ∧ min_limit < limit then
      ckan_fetch_all rest (max min_limit (limit / 2)) offset min_limit frames
    else if 400 ≤ r.code then .err ("HTTP " ++ toString r.code)
    else if r.records.isEmpty then
      (if frames.isEmpty then .err "CKAN returned no records"
       else .ok frames.reverse.flatten)
    else if r.records.length < limit then
      .ok ((r.records :: frames).reverse.flatten)
    else
      ckan_fetch_all rest limit (offset + r.records.length) min_limit
        (r.records :: frames)

theorem ckan_fetch_all_ok_nonempty (resps : List CkanResp)
    (limit offset min_limit : ℕ) (frames : List (List ℕ))
    (hf : ∀ f ∈ frames, f ≠ []) (recs : List ℕ)
    (h : ckan_fetch_all resps limit offset min_limit frames = .ok recs) :
    recs ≠ [] := by
  induction resps generalizing limit offset frames with
  | nil => simp [ckan_fetch_all] at h
  | cons r rest ih =>
    rw [ckan_fetch_all] at h
    by_cases h1 : r.code = 422 ∧ min_limit < limit
    · rw [if_pos h1] at h
      exact ih _ _ _ hf h
    · rw [if_neg h1] at h
      by_cases h2 : 400 ≤ r.code
      · rw [if_pos h2] at h
        exact absurd h (by simp)
      · rw [if_neg h2] at h
        by_cases h3 : r.records.isEmpty = true
        · rw [if_pos h3] at h
          by_cases h4 : frames.isEmpty = true
          · rw [if_pos h4] at h
            exact absurd h (by simp)
          · rw [if_neg h4] at h
            have hrec : recs = frames.reverse.flatten := by
              injection h with h
              exact h.symm
            subst hrec
            intro hnil
            rw [List.flatten_eq_nil_iff] at hnil
            have hfr : frames ≠ [] := fun hh => h4 (by simp [hh])
            obtain ⟨f, hfmem⟩ := List.exists_mem_of_ne_nil frames hfr
            exact hf f hfmem (hnil f (List.mem_reverse.mpr hfmem))
        · rw [if_neg h3] at h
          by_cases h5 : r.records.length < limit
          · rw [if_pos h5] at h
            have hrec : recs = ((r.records :: frames).reverse.flatten) := by
              injection h with h
              exact h.symm
            subst hrec
            intro hnil
            rw [List.flatten_eq_nil_iff] at hnil
            have : r.records = [] :=
              hnil r.records (List.mem_reverse.mpr (List.mem_cons_self _ _))
            exact h3 (by simp [this])
          · rw [if_neg h5] at h
            refine ih _ _ _ ?_ h
            intro f hfmem
            rcases List.mem_cons.mp hfmem with rfl | hfmem
            · intro hh
              exact h3 (by simp [hh])
            · exact hf f hfmem

/-- C10: `_ckan_fetch_all` never returns an empty table — every terminating
run either returns at least one record or raises: pagination ending with
zero records overall raises RuntimeError; a 422 status at `limit ≤
min_limit` is no longer halved and `raise_for_status` raises an HTTP error;
a 422 status above `min_limit` halves the limit but never below
`min_limit`. -/
theorem C10_never_empty (resps : List CkanResp) (limit offset min_limit : ℕ)
    (recs : List ℕ)
    (h : ckan_fetch_all resps limit offset min_limit [] = .ok recs) :
    recs ≠ [] ∧
    (∀ (r : CkanResp) rest limit2 offset2,
      r.code < 400 → r.records = [] →
      ckan_fetch_all (r :: rest) limit2 offset2 min_limit [] =
        .err "CKAN returned no records") ∧
    (∀ (r : CkanResp) rest limit2 offset2 (frames : List (List ℕ)),
      r.code = 422 → ¬ min_limit < limit2 →
      ckan_fetch_all (r :: rest) limit2 offset2 min_limit frames =
        .err ("HTTP " ++ toString r.code)) ∧
    (∀ (r : CkanResp) rest limit2 offset2 (frames : List (List ℕ)),
      r.code = 422 → min_limit < limit2 →
      ckan_fetch_all (r :: rest) limit2 offset2 min_limit frames =
        ckan_fetch_all rest (max min_limit (limit2 / 2)) offset2 min_limit
          frames ∧ min_limit ≤ max min_limit (limit2 / 2)) := by
  refine ⟨ckan_fetch_all_ok_nonempty resps limit offset min_limit []
    (by simp) recs h, ?_, ?_, ?_⟩
  · intro r rest limit2 offset2 hc hr
    rw [ckan_fetch_all]
    rw [if_neg (by omega), if_neg (by omega), if_pos (by simp [hr])]
    simp
  · intro r rest limit2 offset2 frames hc hl
    rw [ckan_fetch_all]
    rw [if_neg (by tauto), if_pos (by omega)]
  · intro r rest limit2 offset2 frames hc hl
    constructor
    · rw [ckan_fetch_all, if_pos ⟨hc, hl⟩]
    · exact le_max_left _ _

/-- C10 witness: a single 200-response with two records and a short page
returns those records, which form a non-empty table. -/
theorem C10_never_empty_witness :
    ckan_fetch_all [⟨200, [1, 2]⟩] 32000 0 1000 [] = .ok [1, 2] ∧
      ([1, 2] : List ℕ) ≠ [] :=
  ⟨by decide, (C10_never_empty [⟨200, [1, 2]⟩] 32000 0 1000 [1, 2]
    (by decide)).1⟩

end HdbReal
